import Mathlib

/-!
Shallow embedding of the power-allocation core of `src/Example.py`
(`HamedUT/Linear-Programming`).

Python floats are modelled as rationals (`ℚ`).  Python's insertion-ordered
`dict` registries are modelled as lists of entries where assigning to an
existing key replaces the entry in place and assigning a fresh key appends.
Python's stable `sorted` is modelled by `List.insertionSort` with a
non-strict comparison, which is likewise stable.  `print` warnings are
modelled as an accumulated list of strings.
-/

/-- The `TrainPhase` enumeration from `src/Example.py` lines 7-10. -/
inductive TrainPhase
  | cruising
  | coasting
  | braking
deriving DecidableEq, Repr

/-- The `PowerConfig` dataclass, lines 12-16. -/
structure PowerConfig where
  cruising_power : ℚ
  coasting_power : ℚ
  braking_regeneration : ℚ
deriving DecidableEq, Repr

/-- The `SubstationConfig` dataclass, lines 18-23. -/
structure SubstationConfig where
  max_power : ℚ
  normal_voltage : ℚ
  min_voltage : ℚ
  max_current : ℚ
deriving DecidableEq, Repr

/-- Builds `SubstationConfig(max_power=threshold)` with the dataclass defaults
`normal_voltage=1.5`, `min_voltage=1.0`, `max_current=5000`. -/
def mkSubstationConfig (max_power : ℚ) : SubstationConfig :=
  ⟨max_power, 3/2, 1, 5000⟩

/-- The `Position` dataclass, lines 25-30. -/
structure Position where
  x : ℚ
deriving DecidableEq, Repr

/-- Embeds `Position.distance_to`, lines 29-30: absolute coordinate difference. -/
def Position.distance_to (p other : Position) : ℚ :=
  |p.x - other.x|

/-- The `Train` class, lines 32-49.  The unused `current_section` field (always `None`
in the program) is omitted. -/
structure Train where
  train_id : String
  power_config : PowerConfig
  position : Position
  current_phase : TrainPhase
deriving DecidableEq, Repr

/-- Embeds `Train.__init__`, lines 33-38: phase starts as CRUISING. -/
def mkTrain (train_id : String) (power_config : PowerConfig) (position : Position) : Train :=
  ⟨train_id, power_config, position, TrainPhase.cruising⟩

/-- Embeds `Train.get_current_power_draw`, lines 40-46. -/
def Train.get_current_power_draw (t : Train) : ℚ :=
  match t.current_phase with
  | TrainPhase.cruising => t.power_config.cruising_power
  | TrainPhase.coasting => t.power_config.coasting_power
  | TrainPhase.braking => t.power_config.braking_regeneration

/-- Embeds `Train.move_to`, lines 48-49. -/
def Train.move_to (t : Train) (new_position : Position) : Train :=
  { t with position := new_position }

/-- The `Substation` class, lines 51-72. -/
structure Substation where
  sub_id : String
  config : SubstationConfig
  position : Position
  is_congested : Bool
  current_load : ℚ
deriving DecidableEq, Repr

/-- Embeds `Substation.__init__`, lines 52-57: not congested, zero load. -/
def mkSubstation (sub_id : String) (config : SubstationConfig) (position : Position) :
    Substation :=
  ⟨sub_id, config, position, false, 0⟩

/-- Embeds `Substation.calculate_power_contribution`, lines 59-69. -/
def Substation.calculate_power_contribution (s : Substation) (train : Train) : ℚ :=
  let distance := s.position.distance_to train.position
  let max_range : ℚ := 10
  if distance > max_range then 0
  else
    let power_factor := (max_range - distance) / max_range
    train.get_current_power_draw * power_factor

/-- Embeds `Substation.update_congestion_status`, lines 71-72. -/
def Substation.update_congestion_status (s : Substation) : Substation :=
  { s with is_congested := decide (s.current_load > s.config.max_power) }

/-- The `NetworkController` state, lines 74-78.  The two `dict` registries are
insertion-ordered association lists (keys are the entities' own id fields). -/
structure NetworkController where
  substations : List Substation
  trains : List Train
  track_length : ℚ
deriving DecidableEq, Repr

/-- Embeds `NetworkController.__init__`, lines 75-78. -/
def mkNetworkController : NetworkController :=
  ⟨[], [], 0⟩

/-- Python `dict` assignment `d[s.sub_id] = s`: replace the entry with the
same key in place, else append. -/
def dictInsertSub : List Substation → Substation → List Substation
  | [], s => [s]
  | t :: ts, s =>
    if t.sub_id = s.sub_id then s :: ts else t :: dictInsertSub ts s

/-- Python `dict` assignment `d[t.train_id] = t`. -/
def dictInsertTrain : List Train → Train → List Train
  | [], t => [t]
  | u :: us, t =>
    if u.train_id = t.train_id then t :: us else u :: dictInsertTrain us t

/-- Embeds `NetworkController.add_substation`, lines 80-82. -/
def NetworkController.add_substation (c : NetworkController) (s : Substation) :
    NetworkController :=
  { c with
    substations := dictInsertSub c.substations s
    track_length := max c.track_length s.position.x }

/-- Embeds `NetworkController.add_train`, lines 84-85. -/
def NetworkController.add_train (c : NetworkController) (t : Train) :
    NetworkController :=
  { c with trains := dictInsertTrain c.trains t }

/-- Comparison key of line 94's `sorted(nearby_subs, key=lambda x: x[1])`. -/
def distLE (a b : Substation × ℚ) : Prop :=
  a.2 ≤ b.2

instance : DecidableRel distLE :=
  fun a b => inferInstanceAs (Decidable (a.2 ≤ b.2))

instance : IsTotal (Substation × ℚ) distLE :=
  ⟨fun a b => le_total a.2 b.2⟩

instance : IsTrans (Substation × ℚ) distLE :=
  ⟨fun _ _ _ h h' => le_trans h h'⟩

/-- Body of `NetworkController.get_nearest_substations`, lines 87-94, as a
function of the substation registry: pair each substation with its distance
to `p`, keep those within `max_distance`, sort ascending by distance
(stable sort, as Python's `sorted`). -/
def nearestOf (subs : List Substation) (p : Position) (max_distance : ℚ) :
    List (Substation × ℚ) :=
  let nearby_subs :=
    (subs.map fun s => (s, s.position.distance_to p)).filter
      fun x => decide (x.2 ≤ max_distance)
  List.insertionSort distLE nearby_subs

/-- Embeds `NetworkController.get_nearest_substations`, lines 87-94.  The Python
default `max_distance=10.0` is passed explicitly by callers here. -/
def NetworkController.get_nearest_substations (c : NetworkController) (p : Position)
    (max_distance : ℚ) : List (Substation × ℚ) :=
  nearestOf c.substations p max_distance

/-- Line 99-100: reset every substation's load to 0. -/
def resetLoads (subs : List Substation) : List Substation :=
  subs.map fun s => { s with current_load := 0 }

/-- Performs `sub.current_load += amount` on the registry entry with the given id
(ids are unique in any registry built through `dict` assignment, so the
first match is the mutated object). -/
def addLoad : List Substation → String → ℚ → List Substation
  | [], _, _ => []
  | s :: rest, i, amt =>
    if s.sub_id = i then { s with current_load := s.current_load + amt } :: rest
    else s :: addLoad rest i amt

/-- The inner loop of `update_power_distribution`, lines 113-120: walk the
nearby (substation, distance) pairs, break when `remaining_power <= 0`,
else add `min(contribution, remaining)` to the substation's load. -/
def distributeOver (train : Train) :
    List (Substation × ℚ) → ℚ → List Substation → List Substation
  | [], _, subs => subs
  | (sub, _) :: rest, remaining_power, subs =>
    if remaining_power ≤ 0 then subs
    else
      let contribution := sub.calculate_power_contribution train
      let actual_contribution := min contribution remaining_power
      distributeOver train rest (remaining_power - actual_contribution)
        (addLoad subs sub.sub_id actual_contribution)

/-- Line 106's warning text. -/
def warnOutOfRange (t : Train) : String :=
  "Warning: Train " ++ t.train_id ++ " is out of range of any substation!"

/-- One iteration of the per-train loop of `update_power_distribution`,
lines 103-120, acting on (substation registry, emitted warnings). -/
def processTrain (acc : List Substation × List String) (train : Train) :
    List Substation × List String :=
  let nearby_subs := nearestOf acc.1 train.position 10
  if nearby_subs.isEmpty then
    (acc.1, acc.2 ++ [warnOutOfRange train])
  else
    (distributeOver train nearby_subs train.get_current_power_draw acc.1, acc.2)

/-- Embeds `NetworkController.update_power_distribution`, lines 96-120: reset the
loads, then process each train in registry order.  Returns the new
controller state together with the warnings printed during the tick. -/
def NetworkController.update_power_distribution (c : NetworkController) :
    NetworkController × List String :=
  let r := c.trains.foldl processTrain (resetLoads c.substations, [])
  ({ c with substations := r.1 }, r.2)

/-- The body of `main`'s per-timestep loop, lines 180-185:
`update_power_distribution` followed by `update_congestion_status` on every
substation. -/
def mainTimestep (c : NetworkController) : NetworkController × List String :=
  let r := c.update_power_distribution
  ({ r.1 with substations := r.1.substations.map Substation.update_congestion_status }, r.2)

/-- Total load over a substation registry. -/
def totalLoad (subs : List Substation) : ℚ :=
  (subs.map Substation.current_load).sum

/-- Everything in a `Substation` except its mutable `current_load`. -/
def subShape (s : Substation) : String × Position × SubstationConfig × Bool :=
  (s.sub_id, s.position, s.config, s.is_congested)

/-! ### Concrete configurations used by the scenario theorems and witnesses.

`pcTen` is the power profile `main` builds from a cruising power of 10 MW
(lines 162-166): coasting `= 10 * 0.2 = 2`, braking `= -10 * 0.15 = -1.5`. -/

def pcTen : PowerConfig := ⟨10, 2, -3/2⟩

/-- Scenario of spec §8 / claim C7: stations at 0 and 8 (threshold 100),
inserted in that order, one cruising train at 4 drawing 10. -/
def c7net : NetworkController :=
  ((mkNetworkController.add_substation
      (mkSubstation "SUB_1" (mkSubstationConfig 100) ⟨0⟩)).add_substation
      (mkSubstation "SUB_2" (mkSubstationConfig 100) ⟨8⟩)).add_train
    (mkTrain "TRAIN_1" pcTen ⟨4⟩)

/-- One station (threshold 5) at 0, one cruising train drawing 6 at 0:
after a tick the station's load (6) exceeds its threshold (5). -/
def c2net : NetworkController :=
  (mkNetworkController.add_substation
      (mkSubstation "SUB_1" (mkSubstationConfig 5) ⟨0⟩)).add_train
    (mkTrain "TRAIN_1" ⟨6, 6/5, -9/10⟩ ⟨0⟩)

/-- The state of `c2net`'s station after the tick and the congestion
update: load 6, threshold 5, congested. -/
def c2sub : Substation :=
  ⟨"SUB_1", mkSubstationConfig 5, ⟨0⟩, true, 6⟩

/-- A braking train (regenerative, negative draw) parked at 0. -/
def brakingTrain : Train :=
  ⟨"TRAIN_1", pcTen, ⟨0⟩, TrainPhase.braking⟩

/-- One station at 0 together with the braking train at 0 (well in range). -/
def c1net : NetworkController :=
  (mkNetworkController.add_substation
      (mkSubstation "SUB_1" (mkSubstationConfig 100) ⟨0⟩)).add_train brakingTrain

/-- One station at 0 and one train at 20, out of the 10-unit service range. -/
def c5net : NetworkController :=
  (mkNetworkController.add_substation
      (mkSubstation "SUB_1" (mkSubstationConfig 100) ⟨0⟩)).add_train
    (mkTrain "TRAIN_1" pcTen ⟨20⟩)

/-- Two distinct substations sharing the id "SUB_1". -/
def s8first : Substation := mkSubstation "SUB_1" (mkSubstationConfig 50) ⟨0⟩

def s8second : Substation := mkSubstation "SUB_1" (mkSubstationConfig 70) ⟨3⟩

/-- Register `s8first` and then the same-id `s8second`. -/
def c8net : NetworkController :=
  (mkNetworkController.add_substation s8first).add_substation s8second

/-! ### Helper lemmas -/

theorem totalLoad_nil : totalLoad [] = 0 := rfl

theorem totalLoad_cons (s : Substation) (rest : List Substation) :
    totalLoad (s :: rest) = s.current_load + totalLoad rest := by
  simp [totalLoad]

theorem addLoad_map_subShape (subs : List Substation) (i : String) (a : ℚ) :
    (addLoad subs i a).map subShape = subs.map subShape := by
  induction subs with
  | nil => rfl
  | cons s rest ih =>
    by_cases h : s.sub_id = i
    · simp [addLoad, h, subShape]
    · simp [addLoad, h, ih]

theorem distributeOver_map_subShape (t : Train) (nearby : List (Substation × ℚ))
    (r : ℚ) (subs : List Substation) :
    (distributeOver t nearby r subs).map subShape = subs.map subShape := by
  induction nearby generalizing r subs with
  | nil => rfl
  | cons p rest ih =>
    obtain ⟨sub, d⟩ := p
    by_cases h : r ≤ 0
    · simp [distributeOver, h]
    · simp only [distributeOver, if_neg h]
      rw [ih, addLoad_map_subShape]

theorem processTrain_fst_map_subShape (acc : List Substation × List String) (t : Train) :
    ((processTrain acc t).1).map subShape = acc.1.map subShape := by
  unfold processTrain
  by_cases h : (nearestOf acc.1 t.position 10).isEmpty
  · simp [h]
  · simp [h, distributeOver_map_subShape]

theorem foldl_processTrain_map_subShape (l : List Train)
    (acc : List Substation × List String) :
    ((List.foldl processTrain acc l).1).map subShape = acc.1.map subShape := by
  induction l generalizing acc with
  | nil => rfl
  | cons t rest ih => rw [List.foldl_cons, ih, processTrain_fst_map_subShape]

theorem resetLoads_map_subShape (subs : List Substation) :
    (resetLoads subs).map subShape = subs.map subShape := by
  simp [resetLoads, subShape]

theorem processTrain_decomp (acc : List Substation × List String) (t : Train) :
    processTrain acc t =
      ((processTrain (acc.1, []) t).1, acc.2 ++ (processTrain (acc.1, []) t).2) := by
  unfold processTrain
  by_cases h : (nearestOf acc.1 t.position 10).isEmpty <;> simp [h]

theorem foldl_processTrain_decomp (l : List Train) :
    ∀ acc : List Substation × List String,
      List.foldl processTrain acc l =
        ((List.foldl processTrain (acc.1, []) l).1,
          acc.2 ++ (List.foldl processTrain (acc.1, []) l).2) := by
  induction l with
  | nil => intro acc; simp
  | cons t rest ih =>
    intro acc
    rw [List.foldl_cons, List.foldl_cons, ih (processTrain acc t),
      ih (processTrain (acc.1, []) t), processTrain_decomp acc t]
    simp [List.append_assoc]

theorem distributeOver_nonpos (t : Train) (nearby : List (Substation × ℚ)) (r : ℚ)
    (subs : List Substation) (hr : r ≤ 0) :
    distributeOver t nearby r subs = subs := by
  cases nearby with
  | nil => rfl
  | cons p rest => obtain ⟨sub, d⟩ := p; simp [distributeOver, hr]

theorem calculate_power_contribution_nonneg (s : Substation) (t : Train)
    (h : 0 ≤ t.get_current_power_draw) : 0 ≤ s.calculate_power_contribution t := by
  unfold Substation.calculate_power_contribution
  by_cases hd : s.position.distance_to t.position > 10
  · simp [hd]
  · push_neg at hd
    simp only [if_neg (not_lt.mpr hd)]
    exact mul_nonneg h (div_nonneg (by linarith) (by norm_num))

theorem totalLoad_addLoad_le (subs : List Substation) (i : String) (a : ℚ) (ha : 0 ≤ a) :
    totalLoad (addLoad subs i a) ≤ totalLoad subs + a := by
  induction subs with
  | nil => simpa [addLoad, totalLoad] using ha
  | cons s rest ih =>
    by_cases h : s.sub_id = i
    · simp only [addLoad, if_pos h, totalLoad_cons]
      linarith
    · simp only [addLoad, if_neg h, totalLoad_cons]
      linarith

theorem distributeOver_totalLoad_le (t : Train) (hdraw : 0 ≤ t.get_current_power_draw) :
    ∀ (nearby : List (Substation × ℚ)) (r : ℚ) (subs : List Substation),
      totalLoad (distributeOver t nearby r subs) ≤ totalLoad subs + max 0 r := by
  intro nearby
  induction nearby with
  | nil =>
    intro r subs
    exact le_add_of_nonneg_right (le_max_left 0 r)
  | cons p rest ih =>
    intro r subs
    obtain ⟨sub, d⟩ := p
    by_cases hr : r ≤ 0
    · simp only [distributeOver, if_pos hr]
      exact le_add_of_nonneg_right (le_max_left 0 r)
    · push_neg at hr
      simp only [distributeOver, if_neg (not_le.mpr hr)]
      have hc : 0 ≤ sub.calculate_power_contribution t :=
        calculate_power_contribution_nonneg sub t hdraw
      have hact : 0 ≤ min (sub.calculate_power_contribution t) r :=
        le_min hc (le_of_lt hr)
      have hactr : min (sub.calculate_power_contribution t) r ≤ r := min_le_right _ _
      have h1 := ih (r - min (sub.calculate_power_contribution t) r)
        (addLoad subs sub.sub_id (min (sub.calculate_power_contribution t) r))
      have h2 := totalLoad_addLoad_le subs sub.sub_id
        (min (sub.calculate_power_contribution t) r) hact
      have hmax1 : max 0 (r - min (sub.calculate_power_contribution t) r) =
          r - min (sub.calculate_power_contribution t) r :=
        max_eq_right (by linarith)
      have hmax2 : max 0 r = r := max_eq_right (le_of_lt hr)
      rw [hmax1] at h1
      rw [hmax2]
      linarith

theorem nearestOf_eq_nil (subs : List Substation) (p : Position)
    (h : ∀ s ∈ subs, 10 < s.position.distance_to p) : nearestOf subs p 10 = [] := by
  unfold nearestOf
  have hf : ((subs.map fun s => (s, s.position.distance_to p)).filter
      fun x => decide (x.2 ≤ 10)) = [] := by
    rw [List.filter_eq_nil_iff]
    intro x hx
    obtain ⟨s, hs, rfl⟩ := List.mem_map.mp hx
    simpa using not_le.mpr (h s hs)
  rw [hf]
  rfl

theorem nearestOf_eq_nil_of_shape (subs subs' : List Substation) (p : Position)
    (hsh : subs'.map subShape = subs.map subShape)
    (h : ∀ s ∈ subs, 10 < s.position.distance_to p) : nearestOf subs' p 10 = [] := by
  apply nearestOf_eq_nil
  intro s' hs'
  have hmem : subShape s' ∈ subs'.map subShape := List.mem_map_of_mem subShape hs'
  rw [hsh] at hmem
  obtain ⟨s, hs, hshape⟩ := List.mem_map.mp hmem
  have hpos : s.position = s'.position := congrArg (fun q => q.2.1) hshape
  rw [← hpos]
  exact h s hs

theorem processTrain_out_of_range (acc : List Substation × List String) (t : Train)
    (h : nearestOf acc.1 t.position 10 = []) :
    processTrain acc t = (acc.1, acc.2 ++ [warnOutOfRange t]) := by
  unfold processTrain
  rw [h]
  rfl

theorem dictInsertSub_dup (s₁ s₂ : Substation) (h : s₁.sub_id = s₂.sub_id) :
    ∀ subs : List Substation,
      dictInsertSub (dictInsertSub subs s₁) s₂ = dictInsertSub subs s₂ := by
  intro subs
  induction subs with
  | nil => simp [dictInsertSub, h]
  | cons u rest ih =>
    by_cases hu : u.sub_id = s₁.sub_id
    · simp [dictInsertSub, hu, h, hu.trans h]
    · have hu2 : ¬ u.sub_id = s₂.sub_id := fun hc => hu (hc.trans h.symm)
      simp [dictInsertSub, hu, hu2, ih]

theorem processTrain_fst_nonpos (subs : List Substation) (ws : List String) (v : Train)
    (h : v.get_current_power_draw ≤ 0) : (processTrain (subs, ws) v).1 = subs := by
  unfold processTrain
  by_cases he : (nearestOf subs v.position 10).isEmpty
  · simp [he]
  · simp [he, distributeOver_nonpos _ _ _ _ h]

/-! ### Claim theorems -/

/-- C3: for every station and vehicle, if the distance exceeds 10 the
contribution is 0; at distance 0 it is exactly the vehicle's current power
draw; and within range it is `draw * (10 - d) / 10`. -/
theorem calculate_power_contribution_piecewise (s : Substation) (v : Train) :
    (10 < s.position.distance_to v.position → s.calculate_power_contribution v = 0) ∧
    (s.position.distance_to v.position = 0 →
      s.calculate_power_contribution v = v.get_current_power_draw) ∧
    (s.position.distance_to v.position ≤ 10 →
      s.calculate_power_contribution v =
        v.get_current_power_draw * (10 - s.position.distance_to v.position) / 10) := by
  unfold Substation.calculate_power_contribution
  refine ⟨fun h => by simp [h], fun h => by simp [h], fun h => ?_⟩
  simp only [if_neg (not_lt.mpr h)]
  ring

/-- C3 witness: the three branches evaluated at distances 20, 0 and 4. -/
theorem calculate_power_contribution_piecewise_witness :
    ((mkSubstation "W3" (mkSubstationConfig 5) ⟨0⟩).calculate_power_contribution
        (mkTrain "T3" pcTen ⟨20⟩) = 0) ∧
    ((mkSubstation "W3" (mkSubstationConfig 5) ⟨0⟩).calculate_power_contribution
        (mkTrain "T3" pcTen ⟨0⟩) = (mkTrain "T3" pcTen ⟨0⟩).get_current_power_draw) ∧
    ((mkSubstation "W3" (mkSubstationConfig 5) ⟨0⟩).calculate_power_contribution
        (mkTrain "T3" pcTen ⟨4⟩) =
      (mkTrain "T3" pcTen ⟨4⟩).get_current_power_draw *
        (10 - (mkSubstation "W3" (mkSubstationConfig 5) ⟨0⟩).position.distance_to
          (mkTrain "T3" pcTen ⟨4⟩).position) / 10) :=
  ⟨(calculate_power_contribution_piecewise _ _).1
      (by simp [mkSubstation, mkTrain, Position.distance_to]; norm_num),
   (calculate_power_contribution_piecewise _ _).2.1
      (by simp [mkSubstation, mkTrain, Position.distance_to]),
   (calculate_power_contribution_piecewise _ _).2.2
      (by simp [mkSubstation, mkTrain, Position.distance_to]; norm_num)⟩

/-- C6: after `update_congestion_status`, the congestion flag is true iff
the load strictly exceeds `max_power`; load exactly equal to `max_power`
yields a false flag. -/
theorem update_congestion_status_spec (s : Substation) :
    ((s.update_congestion_status).is_congested = true ↔
      s.current_load > s.config.max_power) ∧
    (s.current_load = s.config.max_power →
      (s.update_congestion_status).is_congested = false) := by
  constructor
  · simp [Substation.update_congestion_status]
  · intro h
    simp [Substation.update_congestion_status, h]

/-- C6 witness: a station whose load exactly equals its threshold is
flagged not congested. -/
theorem update_congestion_status_spec_witness :
    ((⟨"W6", mkSubstationConfig 5, ⟨0⟩, false, 5⟩ :
      Substation).update_congestion_status).is_congested = false :=
  (update_congestion_status_spec _).2 rfl

/-- C9: a vehicle whose current power draw is not positive (e.g. a braking,
regenerating vehicle) contributes zero load: the per-train step of
`update_power_distribution` leaves the substation registry unchanged,
because the loop breaks immediately on `remaining_power <= 0`. -/
theorem nonpositive_draw_no_load (subs : List Substation) (ws : List String) (v : Train)
    (h : v.get_current_power_draw ≤ 0) : (processTrain (subs, ws) v).1 = subs :=
  processTrain_fst_nonpos subs ws v h

/-- C9 witness: a braking train with a station in range adds no load. -/
theorem nonpositive_draw_no_load_witness :
    (processTrain ([mkSubstation "SUB_1" (mkSubstationConfig 100) ⟨0⟩], [])
      brakingTrain).1 = [mkSubstation "SUB_1" (mkSubstationConfig 100) ⟨0⟩] :=
  nonpositive_draw_no_load _ _ _
    (by norm_num [brakingTrain, Train.get_current_power_draw, pcTen])

/-- C1 (amended): the load a single vehicle's processing step adds across
all stations never exceeds `max 0 draw` — the vehicle's current power draw
clamped below at zero.  (The unclamped bound of the original claim fails
for braking vehicles, whose draw is negative while the attributed load
is 0: see the counterexample.) -/
theorem attributed_load_le_clamped_draw (subs : List Substation) (ws : List String)
    (v : Train) :
    totalLoad (processTrain (subs, ws) v).1 - totalLoad subs ≤
      max 0 v.get_current_power_draw := by
  rcases le_or_lt v.get_current_power_draw 0 with h | h
  · rw [processTrain_fst_nonpos subs ws v h]
    simp [le_max_left]
  · unfold processTrain
    by_cases he : (nearestOf subs v.position 10).isEmpty
    · simp [he, le_max_left]
    · simp only [he, Bool.false_eq_true, if_false]
      have hb := distributeOver_totalLoad_le v (le_of_lt h)
        (nearestOf subs v.position 10) v.get_current_power_draw subs
      have hmax : max 0 v.get_current_power_draw = v.get_current_power_draw :=
        max_eq_right (le_of_lt h)
      rw [hmax] at hb ⊢
      linarith

/-- C1 counterexample: in `c1net` (one station at 0, one braking train at 0,
well within range) the braking train's draw is `-3/2`, yet the total load
attributed to it during the tick is `0 > -3/2` — the sum of attributed
loads exceeds the vehicle's `current_power_draw`, refuting the unclamped
claim. -/
theorem braking_attribution_exceeds_draw :
    (c1net.update_power_distribution).1.substations.map Substation.current_load = [0] ∧
    brakingTrain.get_current_power_draw <
      totalLoad (c1net.update_power_distribution).1.substations := by
  constructor
  · simp only [c1net, brakingTrain, pcTen, NetworkController.update_power_distribution,
      mkNetworkController, NetworkController.add_substation, NetworkController.add_train,
      dictInsertSub, dictInsertTrain, mkSubstation, mkSubstationConfig, processTrain,
      nearestOf, Position.distance_to, resetLoads, distLE, List.foldl, List.map,
      List.filter, List.insertionSort, List.orderedInsert]
    norm_num [distributeOver, addLoad, Substation.calculate_power_contribution,
      Position.distance_to, Train.get_current_power_draw, distLE]
  · simp only [c1net, brakingTrain, pcTen, NetworkController.update_power_distribution,
      mkNetworkController, NetworkController.add_substation, NetworkController.add_train,
      dictInsertSub, dictInsertTrain, mkSubstation, mkSubstationConfig, processTrain,
      nearestOf, Position.distance_to, resetLoads, distLE, List.foldl, List.map,
      List.filter, List.insertionSort, List.orderedInsert, totalLoad]
    norm_num [distributeOver, addLoad, Substation.calculate_power_contribution,
      Position.distance_to, Train.get_current_power_draw, distLE, totalLoad,
      Train.get_current_power_draw]

/-- C10: `update_power_distribution` modifies only station loads: the train
registry, the track length, and every station's id, position, capacity
configuration and congestion flag are unchanged. -/
theorem update_power_distribution_frame (c : NetworkController) :
    (c.update_power_distribution).1.trains = c.trains ∧
    (c.update_power_distribution).1.track_length = c.track_length ∧
    (c.update_power_distribution).1.substations.map subShape =
      c.substations.map subShape := by
  refine ⟨rfl, rfl, ?_⟩
  show ((List.foldl processTrain (resetLoads c.substations, []) c.trains).1).map subShape =
    c.substations.map subShape
  rw [foldl_processTrain_map_subShape]
  exact resetLoads_map_subShape _

/-- C4: `get_nearest_substations` returns exactly the registered stations
within `max_distance` of the position, each paired with its distance, and
the result is sorted ascending by distance. -/
theorem get_nearest_substations_spec (c : NetworkController) (p : Position) (md : ℚ) :
    (∀ s d, (s, d) ∈ c.get_nearest_substations p md ↔
      s ∈ c.substations ∧ d = s.position.distance_to p ∧ d ≤ md) ∧
    List.Sorted distLE (c.get_nearest_substations p md) := by
  constructor
  · intro s d
    unfold NetworkController.get_nearest_substations nearestOf
    simp only [List.mem_insertionSort, List.mem_filter, List.mem_map, Prod.mk.injEq,
      decide_eq_true_eq]
    constructor
    · rintro ⟨⟨a, ha, rfl, rfl⟩, hle⟩
      exact ⟨ha, rfl, hle⟩
    · rintro ⟨hs, rfl, hle⟩
      exact ⟨⟨s, hs, rfl, rfl⟩, hle⟩
  · exact List.sorted_insertionSort distLE _

/-- C4 witness: with one station at 0 and a query position at 4, the pair
(station, 4) is returned. -/
theorem get_nearest_substations_spec_witness :
    (mkSubstation "SUB_1" (mkSubstationConfig 100) ⟨0⟩, (4 : ℚ)) ∈
      ((mkNetworkController.add_substation
        (mkSubstation "SUB_1" (mkSubstationConfig 100) ⟨0⟩)).get_nearest_substations
        ⟨4⟩ 10) :=
  ((get_nearest_substations_spec _ ⟨4⟩ 10).1 _ 4).2
    ⟨by simp [mkNetworkController, NetworkController.add_substation, dictInsertSub],
     by simp [mkSubstation, Position.distance_to],
     by norm_num⟩

/-- C5: a vehicle with no station within range is skipped: the tick's
resulting substation registry is the one obtained with that vehicle absent,
the out-of-range warning is emitted, and (the fold being total) every
remaining vehicle is still processed and the tick completes. -/
theorem out_of_range_train_skipped (c : NetworkController) (v : Train)
    (l1 l2 : List Train) (htr : c.trains = l1 ++ v :: l2)
    (hfar : ∀ s ∈ c.substations, 10 < s.position.distance_to v.position) :
    (c.update_power_distribution).1.substations =
      (NetworkController.update_power_distribution
        { c with trains := l1 ++ l2 }).1.substations ∧
    warnOutOfRange v ∈ (c.update_power_distribution).2 := by
  have hshape : (List.foldl processTrain (resetLoads c.substations,
      ([] : List String)) l1).1.map subShape = c.substations.map subShape := by
    rw [foldl_processTrain_map_subShape]
    exact resetLoads_map_subShape _
  have hnil : nearestOf (List.foldl processTrain (resetLoads c.substations,
      ([] : List String)) l1).1 v.position 10 = [] :=
    nearestOf_eq_nil_of_shape c.substations _ v.position hshape hfar
  constructor
  · show (List.foldl processTrain (resetLoads c.substations, []) c.trains).1 =
      (List.foldl processTrain (resetLoads c.substations, []) (l1 ++ l2)).1
    rw [htr, List.foldl_append, List.foldl_append, List.foldl_cons,
      processTrain_out_of_range _ v hnil,
      foldl_processTrain_decomp l2
        ((List.foldl processTrain (resetLoads c.substations, []) l1).1,
          (List.foldl processTrain (resetLoads c.substations, []) l1).2 ++
            [warnOutOfRange v]),
      foldl_processTrain_decomp l2
        (List.foldl processTrain (resetLoads c.substations, []) l1)]
  · show warnOutOfRange v ∈
      (List.foldl processTrain (resetLoads c.substations, []) c.trains).2
    rw [htr, List.foldl_append, List.foldl_cons,
      processTrain_out_of_range _ v hnil,
      foldl_processTrain_decomp l2
        ((List.foldl processTrain (resetLoads c.substations, []) l1).1,
          (List.foldl processTrain (resetLoads c.substations, []) l1).2 ++
            [warnOutOfRange v])]
    simp

/-- C5 witness: in `c5net` (station at 0, single train at 20) the train is
out of range, the tick leaves the registry as if the train were absent, and
the warning is emitted. -/
theorem out_of_range_train_skipped_witness :
    (c5net.update_power_distribution).1.substations =
      (NetworkController.update_power_distribution
        { c5net with trains := [] ++ [] }).1.substations ∧
    warnOutOfRange (mkTrain "TRAIN_1" pcTen ⟨20⟩) ∈
      (c5net.update_power_distribution).2 :=
  out_of_range_train_skipped c5net (mkTrain "TRAIN_1" pcTen ⟨20⟩) [] [] rfl
    (by
      intro s hs
      simp only [c5net, mkNetworkController, NetworkController.add_substation,
        NetworkController.add_train, dictInsertSub, mkSubstation, mkSubstationConfig,
        List.mem_singleton] at hs
      subst hs
      simp [Position.distance_to, mkTrain]
      norm_num)

/-- C2 counterexample: in `c2net` (station threshold 5, one cruising train
drawing 6 at the station), after `update_power_distribution` alone returns,
the station's load is 6, strictly above the threshold 5, yet the
congestion flag is still `false` — stale with respect to the loads just
computed.  The congestion update is performed afterwards by `main`'s
per-timestep loop, not by `update_power_distribution` itself. -/
theorem stale_congestion_after_update_power_distribution :
    (c2net.update_power_distribution).1.substations.map
        (fun s => (s.current_load, s.config.max_power, s.is_congested)) =
      [((6 : ℚ), (5 : ℚ), false)] ∧ (5 : ℚ) < 6 := by
  constructor
  · simp only [c2net, NetworkController.update_power_distribution,
      mkNetworkController, NetworkController.add_substation, NetworkController.add_train,
      dictInsertSub, dictInsertTrain, mkSubstation, mkTrain, mkSubstationConfig,
      processTrain, nearestOf, Position.distance_to, resetLoads, distLE, List.foldl,
      List.map, List.filter, List.insertionSort, List.orderedInsert]
    norm_num [distributeOver, addLoad, Substation.calculate_power_contribution,
      Position.distance_to, Train.get_current_power_draw, distLE]
  · norm_num

/-- C2 (amended): the per-timestep sequence of `main` — a call to
`update_power_distribution` followed by `update_congestion_status` on every
station — leaves no stale flag: at its end every station's congestion flag
agrees with its just-computed load. -/
theorem mainTimestep_congestion_fresh (c : NetworkController) :
    ∀ s ∈ (mainTimestep c).1.substations,
      s.is_congested = decide (s.current_load > s.config.max_power) := by
  intro s hs
  simp only [mainTimestep, List.mem_map] at hs
  obtain ⟨s₀, _, rfl⟩ := hs
  rfl

/-- C2 witness: applying the amended theorem to `c2net`, whose station after
the full timestep is `c2sub` (load 6, threshold 5, congested). -/
theorem mainTimestep_congestion_fresh_witness :
    c2sub.is_congested = decide (c2sub.current_load > c2sub.config.max_power) :=
  mainTimestep_congestion_fresh c2net c2sub
    (by
      have : (mainTimestep c2net).1.substations = [c2sub] := by
        simp only [c2net, c2sub, mainTimestep, NetworkController.update_power_distribution,
          mkNetworkController, NetworkController.add_substation, NetworkController.add_train,
          dictInsertSub, dictInsertTrain, mkSubstation, mkTrain, mkSubstationConfig,
          processTrain, nearestOf, Position.distance_to, resetLoads, distLE, List.foldl,
          List.map, List.filter, List.insertionSort, List.orderedInsert,
          Substation.update_congestion_status]
        norm_num [distributeOver, addLoad, Substation.calculate_power_contribution,
          Position.distance_to, Train.get_current_power_draw, distLE]
        simp [Substation.update_congestion_status]
        norm_num
      rw [this]
      exact List.mem_singleton_self _)

/-- C7: in the two-station tie scenario (stations at 0 and 8, threshold 100,
inserted in that order; one train at 4 drawing 10) a single tick assigns
load 6 to the first-inserted station and 4 to the other; total allocated is
exactly 10. -/
theorem tie_scenario_allocation :
    (c7net.update_power_distribution).1.substations.map
        (fun s => (s.sub_id, s.current_load)) =
      [("SUB_1", (6 : ℚ)), ("SUB_2", (4 : ℚ))] ∧
    totalLoad (c7net.update_power_distribution).1.substations = 10 := by
  constructor
  · simp only [c7net, pcTen, NetworkController.update_power_distribution,
      mkNetworkController, NetworkController.add_substation, NetworkController.add_train,
      dictInsertSub, dictInsertTrain, mkSubstation, mkTrain, mkSubstationConfig,
      processTrain, nearestOf, Position.distance_to, resetLoads, distLE, List.foldl,
      List.map, List.filter, List.insertionSort, List.orderedInsert]
    norm_num [distributeOver, addLoad, Substation.calculate_power_contribution,
      Position.distance_to, Train.get_current_power_draw, distLE]
    simp
  · simp only [c7net, pcTen, NetworkController.update_power_distribution,
      mkNetworkController, NetworkController.add_substation, NetworkController.add_train,
      dictInsertSub, dictInsertTrain, mkSubstation, mkTrain, mkSubstationConfig,
      processTrain, nearestOf, Position.distance_to, resetLoads, distLE, List.foldl,
      List.map, List.filter, List.insertionSort, List.orderedInsert, totalLoad]
    norm_num [distributeOver, addLoad, Substation.calculate_power_contribution,
      Position.distance_to, Train.get_current_power_draw, distLE, totalLoad]
    simp
    norm_num

/-- C8 counterexample: registering `s8second`, whose id duplicates the
already-registered `s8first`, does not fail: the controller silently
accepts it, ending with a registry holding exactly the replacement.  There
is no fail-fast behaviour at registration time. -/
theorem duplicate_registration_accepted :
    c8net.substations = [s8second] ∧ c8net.substations.length = 1 := by
  constructor
  · simp [c8net, s8first, s8second, mkNetworkController,
      NetworkController.add_substation, dictInsertSub, mkSubstation, mkSubstationConfig]
  · simp [c8net, s8first, s8second, mkNetworkController,
      NetworkController.add_substation, dictInsertSub, mkSubstation, mkSubstationConfig]

/-- C8 (amended): registering an entity whose id duplicates an existing one
is silently accepted, replacing the earlier entity in place: the resulting
registry equals the one obtained by registering only the later entity. -/
theorem duplicate_registration_overwrites (c : NetworkController) (s₁ s₂ : Substation)
    (h : s₁.sub_id = s₂.sub_id) :
    ((c.add_substation s₁).add_substation s₂).substations =
      (c.add_substation s₂).substations := by
  simp only [NetworkController.add_substation]
  exact dictInsertSub_dup s₁ s₂ h c.substations

/-- C8 witness: the amended theorem applied to the concrete duplicate pair. -/
theorem duplicate_registration_overwrites_witness :
    ((mkNetworkController.add_substation s8first).add_substation s8second).substations =
      (mkNetworkController.add_substation s8second).substations :=
  duplicate_registration_overwrites mkNetworkController s8first s8second rfl
